import Mathlib

/-!
Verification development for the badmeet_bot repository
(`src/bwf_scraper.py` and `src/main.py`).  The scraping, de-duplication,
rendering-layout and Telegram-notification logic of the two scripts is
modelled as pure Lean functions (HTTP responses, parsed HTML documents and
parsed JSON bodies become explicit input values), and the specification
claims are proved or refuted against those models.
-/

namespace BadMeet

/-! ## Python string primitives

Kernel-evaluable models of the Python string operations the scripts use.
Strings are handled through their underlying character lists so that
`decide` can evaluate them on concrete inputs.
-/

/-- Membership of `pat` as a contiguous substring of a character list:
the model of Python's `pat in s`. -/
def hasSub (pat : List Char) : List Char → Bool
  | [] => pat.isEmpty
  | c :: t => pat.isPrefixOf (c :: t) || hasSub pat t

/-- Python `pat in s` on strings. -/
def strContains (s pat : String) : Bool :=
  hasSub pat.data s.data

/-- Python `s.upper()` (ASCII case mapping, which is all the scripts rely on). -/
def strUpper (s : String) : String :=
  ⟨s.data.map Char.toUpper⟩

/-- Python `s.lower()` (ASCII case mapping). -/
def strLower (s : String) : String :=
  ⟨s.data.map Char.toLower⟩

/-- Python `s.strip()`: drop whitespace from both ends. -/
def strTrim (s : String) : String :=
  ⟨((s.data.dropWhile Char.isWhitespace).reverse.dropWhile Char.isWhitespace).reverse⟩

/-- Left-to-right non-overlapping replacement of `pat` by `rep`.
`skip` counts pattern characters still to be consumed after a match; the
structural recursion consumes one input character per step.  For a
non-empty `pat` this is exactly Python's `s.replace(pat, rep)` (the
scripts only replace the non-empty pattern `"SUPER"`). -/
def replAux (pat rep : List Char) : Nat → List Char → List Char
  | _ + 1, [] => []
  | n + 1, _ :: t => replAux pat rep n t
  | 0, [] => []
  | 0, c :: t =>
    if pat.isPrefixOf (c :: t) then rep ++ replAux pat rep (pat.length - 1) t
    else c :: replAux pat rep 0 t

/-- Python `s.replace(pat, rep)` for a non-empty pattern. -/
def pyReplace (s pat rep : String) : String :=
  ⟨replAux pat.data rep.data 0 s.data⟩

/-- Python string length (number of code points). -/
def pyLen (s : String) : Nat := s.data.length

/-- Python truthiness of an `os.getenv` result: `None` and the empty
string are falsy. -/
def pyTruthyOpt : Option String → Bool
  | none => false
  | some s => !(s == "")

/-- Python `a or b` on two lists (the first operand is returned unless it
is empty/falsy). -/
def pyOrList {α : Type} (a b : List α) : List α :=
  if a.isEmpty then b else a

/-- Python `try: body except Exception: handler` over an explicit
exception-carrying result. -/
def pyTry {α : Type} (body : Except String α) (handler : String → Except String α) :
    Except String α :=
  match body with
  | .ok a => .ok a
  | .error m => handler m

/-- Status codes for which `requests.Response.raise_for_status` raises
`HTTPError` (4xx and 5xx). -/
def httpErrStatus (status : Nat) : Prop :=
  400 ≤ status ∧ status < 600

instance (status : Nat) : Decidable (httpErrStatus status) := by
  unfold httpErrStatus; infer_instance

/-- Message of the `HTTPError` raised by `raise_for_status`; only its
presence, never its text, matters to the scripts. -/
def httpErrMsg (status : Nat) : String :=
  "HTTPError " ++ toString status

/-- Value of `requests.Response.ok`: `True` exactly when
`raise_for_status` would not raise. -/
def respOk (status : Nat) : Bool :=
  !(decide (httpErrStatus status))

/-! ## Keyed de-duplication (`bwf_scraper.fetch_calendar` lines 89-96,
`main.fetch_bwf_data` lines 418-423)

Both scripts run the same loop shape: walk the list, keep an element when
its key has not been seen (and, in the name-list variant, when the
element is truthy), recording seen keys. -/

/-- Seen-set de-duplication loop.  `key` extracts the de-duplication key,
`pre` is the extra per-element guard (`True` for the record variant,
non-emptiness for the name variant), `seen` is the set of already-seen
keys, modelled as a list. -/
def dedupBy {α κ : Type} [DecidableEq κ] (key : α → κ) (pre : α → Bool)
    (seen : List κ) : List α → List α
  | [] => []
  | a :: as =>
    if pre a = true ∧ key a ∉ seen then a :: dedupBy key pre (key a :: seen) as
    else dedupBy key pre seen as

theorem dedupBy_sublist {α κ : Type} [DecidableEq κ] (key : α → κ) (pre : α → Bool)
    (seen : List κ) (l : List α) : List.Sublist (dedupBy key pre seen l) l := by
  induction l generalizing seen with
  | nil => simp [dedupBy]
  | cons a as ih =>
    rw [dedupBy]
    split
    · exact List.Sublist.cons₂ a (ih _)
    · exact List.Sublist.cons a (ih _)

theorem mem_dedupBy {α κ : Type} [DecidableEq κ] {key : α → κ} {pre : α → Bool}
    {seen : List κ} {l : List α} {a : α} (h : a ∈ dedupBy key pre seen l) :
    pre a = true ∧ key a ∉ seen := by
  induction l generalizing seen with
  | nil => simp [dedupBy] at h
  | cons b bs ih =>
    rw [dedupBy] at h
    split at h
    · rcases List.mem_cons.mp h with rfl | h2
      · assumption
      · have := ih h2
        exact ⟨this.1, fun hm => this.2 (List.mem_cons_of_mem _ hm)⟩
    · exact ih h

theorem dedupBy_keys_nodup {α κ : Type} [DecidableEq κ] (key : α → κ) (pre : α → Bool)
    (seen : List κ) (l : List α) :
    ((dedupBy key pre seen l).map key).Nodup := by
  induction l generalizing seen with
  | nil => simp [dedupBy]
  | cons a as ih =>
    rw [dedupBy]
    split
    · rw [List.map_cons, List.nodup_cons]
      refine ⟨?_, ih _⟩
      intro hmem
      rcases List.mem_map.mp hmem with ⟨b, hb, hkb⟩
      have := (mem_dedupBy hb).2
      exact this (hkb ▸ List.mem_cons_self _ _)
    · exact ih _

theorem dedupBy_eq_self {α κ : Type} [DecidableEq κ] (key : α → κ) (pre : α → Bool) :
    ∀ (l : List α) (seen : List κ), (∀ a ∈ l, pre a = true) →
    ((l.map key).Nodup) → (∀ a ∈ l, key a ∉ seen) →
    dedupBy key pre seen l = l := by
  intro l
  induction l with
  | nil => intro seen _ _ _; rfl
  | cons a as ih =>
    intro seen hpre hnd hseen
    rw [dedupBy]
    rw [List.map_cons, List.nodup_cons] at hnd
    have hcond : pre a = true ∧ key a ∉ seen :=
      ⟨hpre a (List.mem_cons_self _ _), hseen a (List.mem_cons_self _ _)⟩
    rw [if_pos hcond]
    congr 1
    apply ih (key a :: seen)
    · exact fun b hb => hpre b (List.mem_cons_of_mem _ hb)
    · exact hnd.2
    · intro b hb
      intro hmem
      rcases List.mem_cons.mp hmem with heq | hin
      · exact hnd.1 (heq ▸ List.mem_map_of_mem key hb)
      · exact hseen b (List.mem_cons_of_mem _ hb) hin

theorem dedupBy_idem {α κ : Type} [DecidableEq κ] (key : α → κ) (pre : α → Bool)
    (l : List α) :
    dedupBy key pre [] (dedupBy key pre [] l) = dedupBy key pre [] l := by
  apply dedupBy_eq_self
  · exact fun a ha => (mem_dedupBy ha).1
  · exact dedupBy_keys_nodup key pre [] l
  · intro a _ h
    simp at h

/-! ## `bwf_scraper.fetch_calendar` (src/bwf_scraper.py lines 23-97)

The HTML parsing layer (BeautifulSoup) is modelled by a `Card` value:
one entry per tag the card-collection loop keeps, carrying the text
values the per-card extraction code reads off the soup.  `Option String`
fields are `none` when the corresponding `find` returns no tag, and
`some t` (with `t` the stripped text, possibly empty) when a tag exists. -/

/-- One event card, as seen by the extraction loop of `fetch_calendar`.
`heading` is the text of `c.find(["h3", "h2"])`, `anchorText` the text of
`c.find("a")`, `ownText` the stripped text of the card itself, `allText`
the text of `c.get_text(" ", strip=True)` before upper-casing,
`subTexts` the texts of `c.find_all(["time", "span", "div"])` in document
order, `subTexts2` the texts of `c.find_all(["span", "div", "p"])`, and
`href` the `href` of `c.find("a", href=True)`. -/
structure Card where
  heading : Option String
  anchorText : Option String
  ownText : String
  allText : String
  subTexts : List String
  subTexts2 : List String
  href : Option String
deriving DecidableEq

/-- One extracted event record of `fetch_calendar`:
`{name, level, dates, location, link}`. -/
structure CalEvent where
  name : String
  level : String
  dates : String
  location : String
  link : String
deriving DecidableEq

/-- Level tokens probed, in order, against the upper-cased card text
(line 50 of `bwf_scraper.py`). -/
def levelTokens : List String :=
  ["SUPER 1000", "SUPER 750", "SUPER 500", "SUPER1000", "SUPER750", "SUPER500"]

/-- Level detection (lines 48-53): the first token contained in the
upper-cased card text, with `"SUPER"` rewritten to `"Super "`; empty
when no token occurs. -/
def levelOf (textAll : String) : String :=
  match levelTokens.find? (fun lv => strContains textAll lv) with
  | some lv => pyReplace lv "SUPER" "Super "
  | none => ""

/-- Labels a non-empty detected level can take (note the double space
produced by replacing `"SUPER"` inside `"SUPER 1000"`). -/
def tierLabels : List String :=
  levelTokens.map (fun lv => pyReplace lv "SUPER" "Super ")

/-- Markers of the date heuristic (lines 59-60): the year or a month
abbreviation. -/
def dateMarkers : List String :=
  ["2025", "Jan", "Feb", "Mar", "Apr", "May", "Jun",
   "Jul", "Aug", "Sep", "Oct", "Nov", "Dec"]

/-- Name resolution (line 45): heading tag text, else anchor text, else
the card's own text. -/
def cardName (c : Card) : String :=
  match c.heading with
  | some t => t
  | none =>
    match c.anchorText with
    | some t => t
    | none => c.ownText

/-- Date resolution (lines 56-63): first sub-tag text containing a date
marker and of length 6-40; empty otherwise. -/
def cardDates (c : Card) : String :=
  match c.subTexts.find?
      (fun s => (dateMarkers.any (fun m => strContains s m))
        && (decide (6 ≤ pyLen s) && decide (pyLen s ≤ 40))) with
  | some s => s
  | none => ""

/-- Location resolution (lines 66-72): first sub-tag text containing
`"city"`/`"country"` (lower-cased) or a comma, and of length 4-60. -/
def cardLocation (c : Card) : String :=
  match c.subTexts2.find?
      (fun s => ((strContains (strLower s) "city" || strContains (strLower s) "country")
          || strContains s ",")
        && (decide (4 ≤ pyLen s) && decide (pyLen s ≤ 60))) with
  | some s => s
  | none => ""

/-- Record built from one card (lines 45-86, without the tier filter). -/
def extractCard (c : Card) : CalEvent :=
  { name := cardName c
    level := levelOf (strUpper c.allText)
    dates := cardDates c
    location := cardLocation c
    link := c.href.getD "" }

/-- Tier filter (line 79): `level and any(x in level for x in ["1000", "750", "500"])`. -/
def tierKeep (e : CalEvent) : Bool :=
  (!(e.level == "")) && (["1000", "750", "500"].any (fun x => strContains e.level x))

/-- De-duplication key of `fetch_calendar` (line 92). -/
def calKey (e : CalEvent) : String × String × String :=
  (e.name, e.dates, e.level)

/-- De-duplication loop of `fetch_calendar` (lines 89-96). -/
def dedupRecords (l : List CalEvent) : List CalEvent :=
  dedupBy calKey (fun _ => true) [] l

/-- Pure core of `fetch_calendar` on the parsed cards (lines 42-97):
filter by tier while extracting, de-duplicate, and return
`uniq[:8] or events[:8]`. -/
def fetchCalendarList (cards : List Card) : List CalEvent :=
  let events := (cards.map extractCard).filter tierKeep
  let uniq := dedupRecords events
  pyOrList (uniq.take 8) (events.take 8)

/-- Outcome of the single HTTP GET of `fetch_calendar`: a transport
exception, or a response with its status and the cards parsed from its
body. -/
inductive CalOut where
  | exc (msg : String)
  | resp (status : Nat) (cards : List Card)

/-- Model of `fetch_calendar` including its fetch stage (lines 31-97).  The
function has no exception handler: a transport error or an error status
(through `raise_for_status`) escapes to the caller, modelled as
`Except.error`. -/
def fetchCalendarM (o : CalOut) : Except String (List CalEvent) :=
  match o with
  | .exc m => .error m
  | .resp status cards =>
    if httpErrStatus status then .error (httpErrMsg status)
    else .ok (fetchCalendarList cards)

/-! ## Telegram senders (`src/main.py` lines 39-66, `src/bwf_scraper.py`
lines 188-195)

The HTTP POST is modelled by an explicit outcome value; each sender also
reports (second component) whether the network call was reached, so that
the no-network-call-on-missing-configuration property is statable. -/

/-- Outcome of a `requests.post` whose body is read as text. -/
inductive PostOut where
  | exc (msg : String)
  | resp (status : Nat) (body : String)

/-- Model of `send_telegram_text` (main.py lines 39-49).  Inputs: the
`BOT_TOKEN`/`CHAT_ID` environment values, the message, and the network
outcome.  Returns the `(ok, text)` pair of the source together with a
flag telling whether the network call was performed. -/
def sendTelegramText (bot chat : Option String) (_text : String) (net : PostOut) :
    (Bool × String) × Bool :=
  if !(pyTruthyOpt bot) || !(pyTruthyOpt chat) then
    ((false, "Missing BOT_TOKEN or CHAT_ID"), false)
  else
    match net with
    | .exc m => ((false, m), true)
    | .resp status body => ((respOk status, body), true)

/-- Model of `send_telegram_photo` (main.py lines 55-66); identical control flow
to `send_telegram_text`, with image bytes and caption in the payload. -/
def sendTelegramPhoto (bot chat : Option String) (_imgBytes : List Nat)
    (_caption : String) (net : PostOut) : (Bool × String) × Bool :=
  if !(pyTruthyOpt bot) || !(pyTruthyOpt chat) then
    ((false, "Missing BOT_TOKEN or CHAT_ID"), false)
  else
    match net with
    | .exc m => ((false, m), true)
    | .resp status body => ((respOk status, body), true)

/-! ## Parsed JSON values

Model of the values `r.json()` yields, as the scripts inspect them. -/

/-- Parsed-JSON (Python) value. -/
inductive PyVal where
  | pstr (s : String)
  | pint (n : Int)
  | pbool (b : Bool)
  | pnull
  | plist (items : List PyVal)
  | pdict (fields : List (String × PyVal))

/-- Python `str()` of a parsed-JSON value.  Container values render as
their Python repr, which is abbreviated here: no claim reads that text
(every extracted name flows through a non-emptiness filter first, and
container reprs are never empty either way). -/
def pyStr : PyVal → String
  | .pstr s => s
  | .pint n => toString n
  | .pbool b => if b then "True" else "False"
  | .pnull => "None"
  | .plist _ => "[...]"
  | .pdict _ => "\x7b...\x7d"

/-- Outcome of a `requests` call whose body is read with `r.json()`:
either a transport exception, or a status plus the decode result of the
body. -/
inductive JsonOut where
  | exc (msg : String)
  | resp (status : Nat) (body : Except String PyVal)

/-- Model of `tg_send_photo` (bwf_scraper.py lines 188-195).  The token and chat
id are interpolated into the request but never validated; the file-open
step and the POST are explicit outcomes.  Result: the value of
`resp.json()` or the escaping exception, plus a flag telling whether the
network call was performed. -/
def tgSendPhoto (_token _chatId : String) (fileOpen : Except String Unit)
    (net : JsonOut) : Except String PyVal × Bool :=
  match fileOpen with
  | .error m => (.error m, false)
  | .ok _ =>
    match net with
    | .exc m => (.error m, true)
    | .resp status body =>
      if httpErrStatus status then (.error (httpErrMsg status), true)
      else
        match body with
        | .error m => (.error m, true)
        | .ok v => (.ok v, true)

/-! ## `main.fetch_bwf_events` (src/main.py lines 74-177)

The soup is modelled as the list of candidate blocks the two `select`
calls return (in order); each block maps a CSS selector to the text of
its `select_one` result (`none` when no node matches, `some t` when a
node with stripped text `t` matches, `t` possibly empty). -/

/-- One candidate block, as seen through `block.select_one`. -/
structure Block where
  sel : List (String × String)
deriving DecidableEq

/-- Text of `block.select_one(s)`: `none` models a missing node. -/
def selOne (b : Block) (s : String) : Option String :=
  b.sel.lookup s

/-- First selector of the list whose node exists and has non-empty text
(the `if node and node.get_text(strip=True): ...; break` cascade). -/
def firstSelText (b : Block) : List String → Option String
  | [] => none
  | s :: rest =>
    match selOne b s with
    | some t => if t == "" then firstSelText b rest else some t
    | none => firstSelText b rest

/-- Name selector cascade (main.py lines 103-111). -/
def nameSels : List String :=
  [".event-card__name", ".event-card__title", ".c-card__title", ".event__title",
   "h3", "h2", "a"]

/-- Date selector cascade (lines 118-126). -/
def dateSels : List String :=
  [".event-card__date", ".event__date", ".c-card__date", ".date", ".dates",
   "time", "p"]

/-- Level selector cascade (lines 133-140). -/
def levelSels : List String :=
  [".event-card__level", ".event__level", ".c-card__tag", ".level", ".tag",
   "small", "span"]

/-- City selector cascade (lines 148-154). -/
def citySels : List String :=
  [".event-card__city", ".event__city", ".c-card__meta", ".location",
   ".venue", ".city"]

/-- Record shape of `fetch_bwf_events`:
`{"name": ..., "dates": ..., "level": ..., "city": ...}`. -/
structure BwfEvent where
  name : String
  dates : String
  level : String
  city : String
deriving DecidableEq

/-- Per-block extraction (lines 96-169): a record is appended only when a
name was resolved; missing sub-fields default to the empty string. -/
def extractBlock (b : Block) : Option BwfEvent :=
  match firstSelText b nameSels with
  | none => none
  | some n =>
    some { name := n
           dates := (firstSelText b dateSels).getD ""
           level := (firstSelText b levelSels).getD ""
           city := (firstSelText b citySels).getD "" }

/-- Candidate loop (lines 96-171): append records, stopping as soon as
`len(events) >= limit` (checked after each block). -/
def bwfLoop (limit : Nat) (events : List BwfEvent) : List Block → List BwfEvent
  | [] => events
  | b :: rest =>
    let ev2 := match extractBlock b with
      | some e => events ++ [e]
      | none => events
    if limit ≤ ev2.length then ev2 else bwfLoop limit ev2 rest

/-- Parsing core of `fetch_bwf_events` (lines 91-171): candidates are
head-truncated to `max(limit * 2, limit + 2)` before the loop. -/
def fetchBwfEventsList (limit : Nat) (blocks : List Block) : List BwfEvent :=
  bwfLoop limit [] (blocks.take (max (limit * 2) (limit + 2)))

/-- Outcome of the calendar-page GET of `fetch_bwf_events`. -/
inductive BwfOut where
  | exc (msg : String)
  | resp (status : Nat) (blocks : List Block)

/-- Model of `fetch_bwf_events` with its try/except (lines 85-177): the whole body
is wrapped, the handler is `pass`, and the `events` accumulated so far
(necessarily `[]`, as the only raise points precede the loop) are
returned. -/
def fetchBwfEventsM (limit : Nat) (o : BwfOut) : Except String (List BwfEvent) :=
  pyTry
    (match o with
     | .exc m => .error m
     | .resp status blocks =>
       if httpErrStatus status then .error (httpErrMsg status)
       else .ok (fetchBwfEventsList limit blocks))
    (fun _ => .ok [])

/-- Value `fetch_bwf_events` actually returns to its caller. -/
def fetchBwfEvents (limit : Nat) (o : BwfOut) : List BwfEvent :=
  match fetchBwfEventsM limit o with
  | .ok l => l
  | .error _ => []

/-! ## `main.fetch_bwf_data` (src/main.py lines 300-430)

Every network attempt is wrapped in its own try/except inside the source,
so the whole function is total; the environment value collects the
outcome of each possible request (cloudscraper availability, the four
JSON API attempts, the calendar-HTML attempt). -/

/-- The four WordPress JSON endpoints (lines 324-329). -/
def apiUrls : List String :=
  ["https://bwfworldtour.bwfbadminton.com/wp-json/wp/v2/tournament?per_page=100",
   "https://bwfworldtour.bwfbadminton.com/wp-json/wp/v2/event?per_page=100",
   "https://bwfworldtour.bwfbadminton.com/wp-json/wp/v2/tournaments?per_page=100",
   "https://bwfworldtour.bwfbadminton.com/wp-json/wp/v2/posts?search=calendar&per_page=100"]

/-- The calendar HTML page (line 331). -/
def calendarHtmlUrl : String :=
  "https://bwfworldtour.bwfbadminton.com/calendar/"

/-- Model of `extract_names_from_json` (lines 333-346): for a top-level list,
collect per-item titles (`title`, possibly a dict with a `rendered`
field, else `name`), strip them, and keep the non-empty ones. -/
def extractNamesFromJson (obj : PyVal) : List String :=
  match obj with
  | .plist items =>
    (items.filterMap (fun it =>
      match it with
      | .pdict d =>
        match d.lookup "title" with
        | some t =>
          match t with
          | .pdict td => some (strTrim (pyStr ((td.lookup "rendered").getD (.pstr ""))))
          | _ => some (strTrim (pyStr t))
        | none =>
          match d.lookup "name" with
          | some nv => some (strTrim (pyStr nv))
          | none => none
      | _ => none)).filter (fun x => !(x == ""))
  | _ => []

/-- Model of `try_requests_json` (lines 348-356): 403 short-circuits to a
diagnostic, `raise_for_status` and decode errors are caught into a
diagnostic, success yields the extracted names. -/
def tryRequestsJson (url : String) (o : JsonOut) : List String × Option String :=
  match o with
  | .exc m => ([], some ("requests json error for " ++ url ++ ": " ++ m))
  | .resp status body =>
    if status == 403 then ([], some ("403 for " ++ url))
    else if httpErrStatus status then
      ([], some ("requests json error for " ++ url ++ ": " ++ httpErrMsg status))
    else
      match body with
      | .error m => ([], some ("requests json error for " ++ url ++ ": " ++ m))
      | .ok v => (extractNamesFromJson v, none)

/-- One step of the cloudscraper loop (lines 390-400), accumulating
`(results, errors)`. -/
def scraperStep (acc : List String × List String) (p : String × JsonOut) :
    List String × List String :=
  match p.2 with
  | .exc m => (acc.1, acc.2 ++ ["cloudscraper error for " ++ p.1 ++ ": " ++ m])
  | .resp status body =>
    if status == 403 then (acc.1, acc.2 ++ ["403 for " ++ p.1])
    else if httpErrStatus status then
      (acc.1, acc.2 ++ ["cloudscraper error for " ++ p.1 ++ ": " ++ httpErrMsg status])
    else
      match body with
      | .error m => (acc.1, acc.2 ++ ["cloudscraper error for " ++ p.1 ++ ": " ++ m])
      | .ok v => (acc.1 ++ extractNamesFromJson v, acc.2)

/-- Cloudscraper pass over the API endpoints (lines 390-400). -/
def scraperLoop (ps : List (String × JsonOut)) : List String × List String :=
  ps.foldl scraperStep ([], [])

/-- Direct-requests pass over the API endpoints (lines 403-408). -/
def jsonLoop (ps : List (String × JsonOut)) : List String × List String :=
  ps.foldl (fun acc p =>
    let r := tryRequestsJson p.1 p.2
    (acc.1 ++ r.1, acc.2 ++ r.2.toList)) ([], [])

/-- Parsed calendar HTML page, as read by `try_requests_html`:
`selections` maps each CSS selector to the stripped texts of all its
matches (absent selector = no matches), `titleText` is the stripped text
of `soup.title` when present. -/
structure HtmlDoc where
  selections : List (String × List String)
  titleText : Option String

/-- Texts returned by `soup.select(sel)` on the modelled page. -/
def selectTexts (doc : HtmlDoc) (sel : String) : List String :=
  (doc.selections.lookup sel).getD []

/-- Selector cascade of `try_requests_html` (lines 365-370). -/
def htmlNameSels : List String :=
  [".tournament__name", ".event__name", "h4.tournament-title",
   "a[href*=\x27tournament\x27]"]

/-- First selector returning a non-empty match list (lines 371-374). -/
def firstHtmlFound (doc : HtmlDoc) : List String → Option (List String)
  | [] => none
  | s :: rest =>
    let found := selectTexts doc s
    if found.isEmpty then firstHtmlFound doc rest else some found

/-- Outcome of the calendar-page GET of `try_requests_html`. -/
inductive HtmlOut where
  | exc (msg : String)
  | resp (status : Nat) (doc : HtmlDoc)

/-- Model of `try_requests_html` (lines 358-378): 403 and exceptions become
diagnostics; otherwise the first non-empty selector match wins; when all
selectors are empty a single warning string carrying the page title is
returned as the name list. -/
def tryRequestsHtml (url : String) (o : HtmlOut) : List String × Option String :=
  match o with
  | .exc m => ([], some ("requests html error for " ++ url ++ ": " ++ m))
  | .resp status doc =>
    if status == 403 then ([], some ("403 for " ++ url))
    else if httpErrStatus status then
      ([], some ("requests html error for " ++ url ++ ": " ++ httpErrMsg status))
    else
      match firstHtmlFound doc htmlNameSels with
      | some found => (found, none)
      | none =>
        let title := match doc.titleText with
          | some t => t
          | none => "(no <title>)"
        (["⚠️ 未解析到赛事名（可能前端JS渲染）。页面标题: " ++ title], none)

/-- De-duplication loop of `fetch_bwf_data` (lines 418-423):
`if x and x not in seen`. -/
def dedupNames (l : List String) : List String :=
  dedupBy id (fun x => !(x == "")) [] l

/-- Environment of one `fetch_bwf_data` run: `scraper` is `none` when the
cloudscraper import fails, else the outcomes of its four API attempts;
`apiReq` are the direct-requests outcomes; `htmlReq` the calendar-HTML
outcome. -/
structure BwfDataEnv where
  scraper : Option (List JsonOut)
  apiReq : List JsonOut
  htmlReq : HtmlOut

/-- Accumulated `(results, errors)` of the three cascading passes of
`fetch_bwf_data` (lines 380-415): cloudscraper first, the direct JSON
pass only when `results` is still empty, the HTML pass only when it is
empty after that. -/
def bwfGather (env : BwfDataEnv) : List String × List String :=
  let s1 := match env.scraper with
    | none => (([] : List String), ([] : List String))
    | some outs => scraperLoop (apiUrls.zip outs)
  let s2 := if s1.1.isEmpty then jsonLoop (apiUrls.zip env.apiReq) else ([], [])
  let r12 := s1.1 ++ s2.1
  let e12 := s1.2 ++ s2.2
  let s3 := if r12.isEmpty then
      (let q := tryRequestsHtml calendarHtmlUrl env.htmlReq
       (q.1, q.2.toList))
    else ([], [])
  (r12 ++ s3.1, e12 ++ s3.2)

/-- Model of `fetch_bwf_data` (lines 300-430): de-duplicate the gathered names,
head-truncate to 50, append one `⚠️`-prefixed diagnostic per recorded
error, and fall back to a fixed one-element list when everything is
empty. -/
def fetchBwfData (env : BwfDataEnv) : List String :=
  let g := bwfGather env
  let uniq := (dedupNames g.1).take 50
  let result := uniq ++ g.2.map (fun e => "⚠️ " ++ e)
  if result.isEmpty then ["⚠️ API/HTML not readable"] else result

/-! ## `bwf_scraper.draw_calendar_image` layout (src/bwf_scraper.py
lines 108-185)

Only the vertical layout of the body text matters to the claims: each
`draw.text` call at cursor `y` with a font of size `sz` occupies the
vertical span `(y, y + sz)`.  Body font size 34, sub font size 30,
`line_gap` 16, `block_gap` 26, canvas height 1350. -/

/-- Whitespace split of Python `s.split()` (empty words dropped), the
word source of `textwrap.wrap`. -/
def wordsAux (cur : List Char) : List Char → List (List Char)
  | [] => if cur.isEmpty then [] else [cur.reverse]
  | c :: t =>
    if c.isWhitespace then
      (if cur.isEmpty then wordsAux [] t else cur.reverse :: wordsAux [] t)
    else wordsAux (c :: cur) t

/-- Words of a Python string. -/
def pyWords (s : String) : List String :=
  (wordsAux [] s.data).map (fun l => ⟨l⟩)

/-- Greedy line filling of `textwrap.wrap`: pack words into lines of at
most `width` characters (one joining space between words).  Faithful for
words that fit the width, which covers every name considered here (the
long-word breaking mode of `textwrap` is not modelled). -/
def wrapFill (width : Nat) (cur : String) : List String → List String
  | [] => if cur == "" then [] else [cur]
  | w :: ws =>
    if cur == "" then wrapFill width w ws
    else if pyLen cur + 1 + pyLen w ≤ width then wrapFill width (cur ++ " " ++ w) ws
    else cur :: wrapFill width w ws

/-- Model of `textwrap.wrap(s, width)` (line 162 uses width 28); the empty or
all-whitespace string wraps to no lines at all. -/
def textwrapWrap (width : Nat) (s : String) : List String :=
  wrapFill width "" (pyWords s)

/-- Record loop of `draw_calendar_image` (lines 159-180): returns the
vertical spans of every body text line drawn.  Per event: one span per
wrapped name line (cursor advancing by 34 + 16), then the metadata line
(span of height 30, cursor advancing by 30 + 26); after each event the
loop stops when the cursor exceeds `H - 340 = 1010`. -/
def calLines (cursor : Nat) : List CalEvent → List (Nat × Nat)
  | [] => []
  | e :: rest =>
    let nameLines := textwrapWrap 28 e.name
    let k := nameLines.length
    let nameSpans := (List.range k).map (fun i => (cursor + 50 * i, cursor + 50 * i + 34))
    let metaTop := cursor + 50 * k
    let spans := nameSpans ++ [(metaTop, metaTop + 30)]
    let cursor2 := metaTop + 30 + 26
    if 1350 - 340 < cursor2 then spans else spans ++ calLines cursor2 rest

/-- Body text spans of `draw_calendar_image`: the cursor starts at
`top_y + 110`, with `top_y` the banner height plus 24 when a banner
asset exists and 40 otherwise (lines 117-125, 150). -/
def drawCalendarTextSpans (bannerH : Option Nat) (events : List CalEvent) :
    List (Nat × Nat) :=
  let topY := match bannerH with
    | some bh => bh + 24
    | none => 40
  calLines (topY + 110) events

/-- Top edge of the reserved QR square (lines 129-136):
`y = H - target - 32 = 1350 - 260 - 32`. -/
def qrTop : Nat := 1350 - 260 - 32

/-! ## Helper lemmas for the claims -/

theorem levelOf_mem_tierLabels {t : String} (h : levelOf t ≠ "") :
    levelOf t ∈ tierLabels := by
  unfold levelOf at h ⊢
  cases hf : levelTokens.find? (fun lv => strContains t lv) with
  | none => rw [hf] at h; exact absurd rfl h
  | some lv =>
    exact List.mem_map_of_mem _ (List.mem_of_find?_eq_some hf)

theorem mem_of_fetchCalendarList {cards : List Card} {e : CalEvent}
    (h : e ∈ fetchCalendarList cards) :
    e ∈ (cards.map extractCard).filter tierKeep := by
  simp only [fetchCalendarList, pyOrList] at h
  split at h
  · exact List.mem_of_mem_take h
  · exact (dedupBy_sublist _ _ _ _).subset (List.mem_of_mem_take h)

theorem warn_prefix_ne_empty (e : String) : ("⚠️ " ++ e) ≠ "" := by
  obtain ⟨data⟩ := e
  intro h
  rw [String.ext_iff] at h
  simp [String.data_append] at h

/-! ## Claims -/

/-- C7: the de-duplication step is idempotent for both variants — the
record variant keyed on (name, dates, level) in `fetch_calendar` and the
string variant of `fetch_bwf_data` — and its output is a subsequence of
its input, so first-occurrence order is preserved. -/
theorem dedup_idem_and_stable :
    (∀ l : List CalEvent, dedupRecords (dedupRecords l) = dedupRecords l) ∧
    (∀ l : List CalEvent, List.Sublist (dedupRecords l) l) ∧
    (∀ l : List String, dedupNames (dedupNames l) = dedupNames l) ∧
    (∀ l : List String, List.Sublist (dedupNames l) l) :=
  ⟨fun l => dedupBy_idem _ _ l, fun l => dedupBy_sublist _ _ _ l,
   fun l => dedupBy_idem _ _ l, fun l => dedupBy_sublist _ _ _ l⟩

/-- C8: the tier filter is order-preserving — for every sequence of
candidate events, the tier-filtered output is a subsequence (same
relative order) of the unfiltered input. -/
theorem tier_filter_order_preserving (rs : List CalEvent) :
    List.Sublist (rs.filter tierKeep) rs :=
  List.filter_sublist rs

/-- Card of a tournament whose text carries no Super 1000/750/500 token. -/
def cardNoTier : Card :=
  { heading := some "Foo Open", anchorText := none, ownText := "Foo Open",
    allText := "Foo Open friendly 12 Jan 2025", subTexts := ["12 Jan 2025"],
    subTexts2 := [], href := none }

/-- Card of a Super 500 tournament. -/
def cardSuper500 : Card :=
  { heading := some "KL Open", anchorText := none, ownText := "KL Open",
    allText := "KL Open SUPER 500 12 Jan 2025", subTexts := ["12 Jan 2025"],
    subTexts2 := ["Kuala Lumpur, Malaysia"], href := some "https://example.org/kl" }

/-- C1 counterexample: on a document whose only card has no tier token
the filter leaves the result empty, and `fetch_calendar` returns the
empty list — not the head-truncated unfiltered list the claim promises
(the `or` fallback re-reads the already-filtered list, which is the same
empty list). -/
theorem tier_relaxation_cex :
    ((List.map extractCard [cardNoTier]).filter tierKeep = []) ∧
    fetchCalendarList [cardNoTier] = [] ∧
    (List.map extractCard [cardNoTier]).take 8 ≠ [] := by decide

/-- C1 (amended): an event is kept only if its level field matched a
tier token (every returned event passes the tier predicate and its level
is one of the rewritten tier labels); when applying the filter leaves the
result empty, `fetch_calendar` returns the empty list — the filter is
never relaxed, since the fallback operand is the same filtered list. -/
theorem tier_filter_behaviour (cards : List Card) :
    (∀ e ∈ fetchCalendarList cards, tierKeep e = true ∧ e.level ∈ tierLabels) ∧
    ((cards.map extractCard).filter tierKeep = [] → fetchCalendarList cards = []) := by
  constructor
  · intro e he
    have hev := mem_of_fetchCalendarList he
    have hk : tierKeep e = true := (List.mem_filter.mp hev).2
    refine ⟨hk, ?_⟩
    rcases List.mem_map.mp (List.mem_filter.mp hev).1 with ⟨c, _, rfl⟩
    have hne : (extractCard c).level ≠ "" := by
      intro h0
      rw [tierKeep, h0] at hk
      simp at hk
    exact levelOf_mem_tierLabels hne
  · intro hemp
    simp only [fetchCalendarList, dedupRecords, hemp]
    rfl

/-- C1 witness: a Super 500 card is kept with a tier label, and the
document with only a tier-less card yields the empty result. -/
theorem tier_filter_behaviour_witness :
    (tierKeep (extractCard cardSuper500) = true ∧
      (extractCard cardSuper500).level ∈ tierLabels) ∧
    fetchCalendarList [cardNoTier] = [] :=
  ⟨(tier_filter_behaviour [cardSuper500]).1 (extractCard cardSuper500) (by decide),
   (tier_filter_behaviour [cardNoTier]).2 (by decide)⟩

/-- C2 counterexample: a 403 calendar response makes `fetch_calendar`
raise (`resp.raise_for_status()` on line 32 of bwf_scraper.py is wrapped
by no handler), so this extraction pipeline does let an exception escape
on a network failure. -/
theorem extractor_raises_cex :
    fetchCalendarM (CalOut.resp 403 []) = Except.error (httpErrMsg 403) := rfl

/-- C2 (amended): `main.fetch_bwf_events` never lets an exception escape
— every network outcome yields a normal (possibly empty) return — while
`bwf_scraper.fetch_calendar` propagates fetch failures: every HTTP error
status escapes as an exception. -/
theorem extractor_exception_policy :
    (∀ (limit : Nat) (o : BwfOut), ∃ l, fetchBwfEventsM limit o = Except.ok l) ∧
    (∀ (status : Nat) (cards : List Card), httpErrStatus status →
      fetchCalendarM (CalOut.resp status cards) = Except.error (httpErrMsg status)) := by
  constructor
  · intro limit o
    cases o with
    | exc m => exact ⟨[], rfl⟩
    | resp s blocks =>
      by_cases h : httpErrStatus s
      · exact ⟨[], by simp [fetchBwfEventsM, pyTry, h]⟩
      · exact ⟨fetchBwfEventsList limit blocks, by simp [fetchBwfEventsM, pyTry, h]⟩
  · intro s cards h
    simp [fetchCalendarM, h]

/-- C2 witness: a transport exception in `fetch_bwf_events` still yields
a normal return, and a 500 status makes `fetch_calendar` raise. -/
theorem extractor_exception_policy_witness :
    (∃ l, fetchBwfEventsM 8 (BwfOut.exc "boom") = Except.ok l) ∧
    fetchCalendarM (CalOut.resp 500 []) = Except.error (httpErrMsg 500) :=
  ⟨extractor_exception_policy.1 8 (BwfOut.exc "boom"),
   extractor_exception_policy.2 500 [] (by decide)⟩

/-- C3 counterexample: `tg_send_photo` performs the network call even
with an empty token and empty chat id — it has no configuration check at
all, contradicting the claim that every notifier operation fails
immediately without a network call. -/
theorem tg_send_photo_no_config_check_cex :
    (tgSendPhoto "" "" (Except.ok ()) (JsonOut.resp 200 (Except.ok PyVal.pnull))).2
      = true := rfl

/-- C3 (amended): the senders of main.py fail immediately with the fixed
configuration message and perform no network call whenever the token or
the chat id is absent or empty; `tg_send_photo` of bwf_scraper.py never
checks them and always reaches the network once the image file opens. -/
theorem notifier_config_check
    (bot chat : Option String) (text : String) (img : List Nat) (cap : String)
    (net : PostOut) (tok cid : String) (net2 : JsonOut)
    (h : pyTruthyOpt bot = false ∨ pyTruthyOpt chat = false) :
    sendTelegramText bot chat text net = ((false, "Missing BOT_TOKEN or CHAT_ID"), false) ∧
    sendTelegramPhoto bot chat img cap net = ((false, "Missing BOT_TOKEN or CHAT_ID"), false) ∧
    (tgSendPhoto tok cid (Except.ok ()) net2).2 = true := by
  have hcond : (!(pyTruthyOpt bot) || !(pyTruthyOpt chat)) = true := by
    rcases h with h | h <;> simp [h]
  refine ⟨by simp [sendTelegramText, hcond], by simp [sendTelegramPhoto, hcond], ?_⟩
  cases net2 with
  | exc m => rfl
  | resp s b =>
    by_cases hs : httpErrStatus s
    · simp [tgSendPhoto, hs]
    · cases b with
      | error m => simp [tgSendPhoto, hs]
      | ok v => simp [tgSendPhoto, hs]

/-- C3 witness: with no token configured, both senders return the
configuration failure without a network call, and `tg_send_photo` still
reaches the network. -/
theorem notifier_config_check_witness :
    sendTelegramText none (some "c") "hi" (PostOut.resp 200 "ok")
      = ((false, "Missing BOT_TOKEN or CHAT_ID"), false) ∧
    sendTelegramPhoto none (some "c") [7] "cap" (PostOut.resp 200 "ok")
      = ((false, "Missing BOT_TOKEN or CHAT_ID"), false) ∧
    (tgSendPhoto "x" "y" (Except.ok ()) (JsonOut.exc "down")).2 = true :=
  notifier_config_check none (some "c") "hi" [7] "cap" (PostOut.resp 200 "ok")
    "x" "y" (JsonOut.exc "down") (Or.inl (by decide))

/-- C5 counterexample: on a 404 response `tg_send_photo` raises instead
of returning a success flag together with the raw body — no
`(flag, body)` result exists in the failure case. -/
theorem tg_send_photo_raises_cex :
    (tgSendPhoto "tok" "chat" (Except.ok ()) (JsonOut.resp 404 (Except.ok PyVal.pnull))).1
      = Except.error (httpErrMsg 404) := rfl

/-- C5 (amended): for the senders of main.py that reach the network, the
returned flag equals `r.ok` — true exactly when the status is outside
the 400-599 error range — and the raw body is returned in both the
success and the failure case; `tg_send_photo` of bwf_scraper.py instead
raises on an error status and returns the parsed JSON body on success. -/
theorem notifier_result_contract
    (bot chat : Option String) (text : String) (img : List Nat) (cap : String)
    (status : Nat) (body : String)
    (hb : pyTruthyOpt bot = true) (hc : pyTruthyOpt chat = true) :
    (respOk status = true ↔ ¬ httpErrStatus status) ∧
    (sendTelegramText bot chat text (PostOut.resp status body)).1 = (respOk status, body) ∧
    (sendTelegramPhoto bot chat img cap (PostOut.resp status body)).1 = (respOk status, body) ∧
    (∀ (tok cid : String) (j : PyVal), httpErrStatus status →
      (tgSendPhoto tok cid (Except.ok ()) (JsonOut.resp status (Except.ok j))).1
        = Except.error (httpErrMsg status)) ∧
    (∀ (tok cid : String) (j : PyVal), ¬ httpErrStatus status →
      (tgSendPhoto tok cid (Except.ok ()) (JsonOut.resp status (Except.ok j))).1
        = Except.ok j) := by
  refine ⟨by simp [respOk], by simp [sendTelegramText, hb, hc], by simp [sendTelegramPhoto, hb, hc], ?_, ?_⟩
  · intro tok cid j hs
    simp [tgSendPhoto, hs]
  · intro tok cid j hs
    simp [tgSendPhoto, hs]

/-- C5 witness: a 404 gives flag `false` with the raw body from
`send_telegram_text`, and an exception from `tg_send_photo`; a 200 gives
the parsed JSON body from `tg_send_photo`. -/
theorem notifier_result_contract_witness :
    (sendTelegramText (some "b") (some "c") "m" (PostOut.resp 404 "raw")).1
      = (respOk 404, "raw") ∧
    (tgSendPhoto "t" "c" (Except.ok ()) (JsonOut.resp 404 (Except.ok PyVal.pnull))).1
      = Except.error (httpErrMsg 404) ∧
    (tgSendPhoto "t" "c" (Except.ok ()) (JsonOut.resp 200 (Except.ok (PyVal.pstr "r")))).1
      = Except.ok (PyVal.pstr "r") :=
  ⟨(notifier_result_contract (some "b") (some "c") "m" [] "cap" 404 "raw"
      (by decide) (by decide)).2.1,
   (notifier_result_contract (some "b") (some "c") "m" [] "cap" 404 "raw"
      (by decide) (by decide)).2.2.2.1 "t" "c" PyVal.pnull (by decide),
   (notifier_result_contract (some "b") (some "c") "m" [] "cap" 200 "raw"
      (by decide) (by decide)).2.2.2.2 "t" "c" (PyVal.pstr "r") (by decide)⟩

theorem bwfLoop_length_le (limit : Nat) :
    ∀ (blocks : List Block) (events : List BwfEvent), events.length < limit →
    (bwfLoop limit events blocks).length ≤ limit := by
  intro blocks
  induction blocks with
  | nil => intro events h; simpa [bwfLoop] using h.le
  | cons b bs ih =>
    intro events h
    rw [bwfLoop]
    have h2 : (match extractBlock b with
        | some e => events ++ [e]
        | none => events).length ≤ limit := by
      cases hx : extractBlock b
      · simpa using h.le
      · simpa using h
    split
    · exact h2
    · next hlt => exact ih _ (Nat.lt_of_not_le hlt)

/-- JSON body with 51 distinct tournament titles. -/
def titles51 : PyVal :=
  PyVal.plist ((List.range 51).map (fun i => PyVal.pdict [("title", PyVal.pstr ("T" ++ toString i))]))

/-- Environment in which the first JSON endpoint yields 51 titles and
the remaining three answer 403. -/
def envC4 : BwfDataEnv :=
  { scraper := none
    apiReq := [JsonOut.resp 200 (Except.ok titles51),
               JsonOut.resp 403 (Except.ok PyVal.pnull),
               JsonOut.resp 403 (Except.ok PyVal.pnull),
               JsonOut.resp 403 (Except.ok PyVal.pnull)]
    htmlReq := HtmlOut.exc "unused" }

/-- C4 counterexample: with 51 distinct titles and three 403 diagnostics,
`fetch_bwf_data` returns 53 entries — the returned sequence is not
truncated to the declared maximum of 50, because the diagnostics are
appended after the truncation. -/
theorem fetch_bwf_data_over_50_cex :
    ¬ ((fetchBwfData envC4).length ≤ 50) := by decide

/-- C4 (amended): `fetch_calendar` returns at most 8 records and
`fetch_bwf_events` (at its default limit 8) at most 8 records; in
`fetch_bwf_data` only the de-duplicated name portion is truncated to at
most 50 — one diagnostic per recorded error is appended afterwards, so
the full returned sequence is only bounded by 50 plus the number of
errors. -/
theorem extraction_truncation :
    (∀ cards : List Card, (fetchCalendarList cards).length ≤ 8) ∧
    (∀ o : BwfOut, (fetchBwfEvents 8 o).length ≤ 8) ∧
    (∀ env : BwfDataEnv, ((dedupNames (bwfGather env).1).take 50).length ≤ 50 ∧
      (fetchBwfData env).length ≤ 50 + (bwfGather env).2.length) := by
  refine ⟨?_, ?_, ?_⟩
  · intro cards
    simp only [fetchCalendarList, pyOrList]
    split
    · exact List.length_take_le 8 _
    · exact List.length_take_le 8 _
  · intro o
    cases o with
    | exc m => simp [fetchBwfEvents, fetchBwfEventsM, pyTry]
    | resp s blocks =>
      by_cases h : httpErrStatus s
      · simp [fetchBwfEvents, fetchBwfEventsM, pyTry, h]
      · simp only [fetchBwfEvents, fetchBwfEventsM, pyTry, h, if_neg h]
        exact bwfLoop_length_le 8 _ [] (by decide)
  · intro env
    refine ⟨List.length_take_le 50 _, ?_⟩
    simp only [fetchBwfData]
    split
    · have : 1 ≤ 50 + (bwfGather env).2.length := by omega
      simpa using this
    · rw [List.length_append, List.length_map]
      have := List.length_take_le 50 (dedupNames (bwfGather env).1)
      omega

/-- Event whose name wraps to a single line. -/
def evAlpha : CalEvent :=
  { name := "Alpha", level := "Super 500", dates := "", location := "", link := "" }

/-- C6 evaluation at the failing input: with no banner and nine
single-line events, the ninth record is still drawn (the cursor check
runs only after a record is complete), and its metadata line spans
y = 1048..1078 — its lower bound lies 20 pixels below the reserved QR
region's top edge y = 1058, so body text is drawn inside the reserved
bottom-right region rows. -/
theorem draw_text_enters_qr_region :
    (1048, 1078) ∈ drawCalendarTextSpans none (List.replicate 9 evAlpha) ∧
    qrTop < 1078 := by decide

/-- Environment in which every endpoint fails with an exception. -/
def envAllFail : BwfDataEnv :=
  { scraper := none
    apiReq := [JsonOut.exc "x", JsonOut.exc "x", JsonOut.exc "x", JsonOut.exc "x"]
    htmlReq := HtmlOut.exc "y" }

/-- C10: `fetch_bwf_data` always returns a non-empty list all of whose
elements are non-empty strings: de-duplicated names are filtered to
non-empty values, diagnostics carry a non-empty prefix, and the fixed
one-element fallback covers the remaining case. -/
theorem fetch_bwf_data_nonempty (env : BwfDataEnv) :
    fetchBwfData env ≠ [] ∧ ∀ s ∈ fetchBwfData env, s ≠ "" := by
  simp only [fetchBwfData]
  split
  · refine ⟨by simp, ?_⟩
    intro s hs
    rw [List.mem_singleton] at hs
    subst hs
    decide
  · next hne =>
    refine ⟨?_, ?_⟩
    · intro h0
      rw [h0] at hne
      simp at hne
    · intro s hs
      rcases List.mem_append.mp hs with hl | hr
      · have hmem := List.mem_of_mem_take hl
        have := (mem_dedupBy hmem).1
        simpa using this
      · rcases List.mem_map.mp hr with ⟨e, _, rfl⟩
        exact warn_prefix_ne_empty e

/-- C10 witness: in the all-failures environment, the output is
non-empty and contains the html diagnostic, which is non-empty. -/
theorem fetch_bwf_data_nonempty_witness :
    fetchBwfData envAllFail ≠ [] ∧
    ("⚠️ requests html error for " ++ calendarHtmlUrl ++ ": y") ≠ "" :=
  ⟨(fetch_bwf_data_nonempty envAllFail).1,
   (fetch_bwf_data_nonempty envAllFail).2 _ (by decide)⟩

end BadMeet
